import Mathlib

/-!
Shallow embedding of the `einkaaf/rasp` robot control panel (`pannel.py`,
`YB_Pcb_Car.py`, `forward3.py`) and proofs about the claims of its
specification.

Modelling conventions:
* Python integers are `ℤ`; Python floats are idealised as `ℚ` (every
  comparison and arithmetic step the claims depend on is exact at the
  values involved).
* A form/JSON scalar that `int(...)` / `float(...)` accepts is `some v`;
  a missing or non-numeric input is `none`.
* The external device gateway (`Raspbot_Lib`, I2C bus, OpenCV camera) is
  an oracle: each fallible external call takes its outcome as an explicit
  boolean/optional argument, and the hardware commands a handler issues
  are returned as an explicit action list.
* Status messages are modelled by an injective inductive `Status` tag per
  distinct message produced by the source.
-/

/-- Constants of `pannel.py` (lines 22-32). -/
def DEFAULT_SPEED : ℤ := 120

def PAN_MIN : ℤ := 20
def PAN_MAX : ℤ := 160
def TILT_MIN : ℤ := 50
def TILT_MAX : ℤ := 110
def FPS_LIMIT : ℚ := 20

/-- `clamp_int(val, lo, hi, default)` of `pannel.py` lines 68-73:
`int(val)` failing (missing or non-numeric input, modelled as `none`)
yields the default, otherwise the value is clamped to `[lo, hi]`. -/
def clamp_int (val : Option ℤ) (lo hi default : ℤ) : ℤ :=
  match val with
  | none => default
  | some v => max lo (min hi v)

/-- `clamp_float(val, lo, hi, default)` of `pannel.py` lines 75-80. -/
def clamp_float (val : Option ℚ) (lo hi default : ℚ) : ℚ :=
  match val with
  | none => default
  | some v => max lo (min hi v)

/-- Status-message tags, one per distinct message `set_status` receives. -/
inductive Status where
  | ready
  | speedSet (v : ℤ)
  | servoSet (p t : ℤ)
  | servoCenter
  | servoRandom (p t : ℤ)
  | joystickStop
  | joystickLR (l r : ℤ)
  | moveForward (v : ℤ)
  | moveBackward (v : ℤ)
  | spinLeft (v : ℤ)
  | spinRight (v : ℤ)
  | motorsStopped
  | panicDone
  | sequenceBusy
  | sequenceForward
  | sequencePhotos
  | sequenceBackward
  | sequenceDone
  | effectFinished
  deriving DecidableEq, Repr

/-- The shared mutable `state` dict of `pannel.py` lines 46-56 (the fields
the claims touch). -/
structure RobotState where
  speed : ℤ
  pan : ℤ
  tilt : ℤ
  ultraOn : Bool
  irOn : Bool
  lastLedColor : Option ℤ
  status : Status
  deriving DecidableEq, Repr

/-- The initial `state` dict: speed 120, pan 90, tilt 90, sensors off. -/
def initState : RobotState :=
  { speed := DEFAULT_SPEED, pan := 90, tilt := 90, ultraOn := false,
    irOn := false, lastLedColor := none, status := .ready }

/-- Handler `api_motor_speed` (`pannel.py` lines 1304-1309): clamp the
`speed` form input into `[0,255]` with default `DEFAULT_SPEED`, store it
and report it in the status text. -/
def apiMotorSpeed (input : Option ℤ) (s : RobotState) : RobotState :=
  let v := clamp_int input 0 255 DEFAULT_SPEED
  { s with speed := v, status := .speedSet v }

/-- `safe_servo(id_, angle)` (`pannel.py` lines 105-113): servo 1 (pan) is
clamped to `[PAN_MIN, PAN_MAX]`, any other id (tilt) to
`[TILT_MIN, TILT_MAX]`; the clamped angle is stored in the state and is
the value commanded to `bot.Ctrl_Servo`, and it is returned. -/
def safe_servo (id_ : ℤ) (angle : ℤ) (s : RobotState) : ℤ × RobotState :=
  if id_ = 1 then
    let a := clamp_int (some angle) PAN_MIN PAN_MAX 90
    (a, { s with pan := a })
  else
    let a := clamp_int (some angle) TILT_MIN TILT_MAX 90
    (a, { s with tilt := a })

/-- C1 counterexample: the numeric input 300 lies outside `[0,255]`, yet
`api_motor_speed` stores 255 (the clamped boundary), not the default 120. -/
theorem apiMotorSpeed_claim1_counterexample :
    (255 : ℤ) < 300 ∧ (apiMotorSpeed (some 300) initState).speed = 255 ∧
      (apiMotorSpeed (some 300) initState).speed ≠ 120 := by
  refine ⟨by norm_num, rfl, by decide⟩

/-- C1 (amended): a non-numeric/missing `speed` input stores the default
120; a numeric input below 0 stores 0; a numeric input above 255 stores
255 (the nearest boundary, not the default). -/
theorem apiMotorSpeed_clamps_or_defaults (input : Option ℤ) (s : RobotState) :
    ((input = none → (apiMotorSpeed input s).speed = 120) ∧
      (∀ v, input = some v → v < 0 → (apiMotorSpeed input s).speed = 0) ∧
      (∀ v, input = some v → 255 < v → (apiMotorSpeed input s).speed = 255)) := by
  refine ⟨fun h => ?_, fun v hv h => ?_, fun v hv h => ?_⟩
  · subst h; rfl
  · subst hv
    simp only [apiMotorSpeed, clamp_int]
    omega
  · subst hv
    simp only [apiMotorSpeed, clamp_int]
    omega

/-- C1 witness: concrete instances of all three amended branches. -/
theorem apiMotorSpeed_clamps_or_defaults_witness :
    (apiMotorSpeed none initState).speed = 120 ∧
      (apiMotorSpeed (some (-7)) initState).speed = 0 ∧
      (apiMotorSpeed (some 300) initState).speed = 255 := by
  refine ⟨(apiMotorSpeed_clamps_or_defaults none initState).1 rfl,
    (apiMotorSpeed_clamps_or_defaults (some (-7)) initState).2.1 (-7) rfl (by norm_num),
    (apiMotorSpeed_clamps_or_defaults (some 300) initState).2.2 300 rfl (by norm_num)⟩

/-- C8: out-of-range servo angles are clamped to the nearest boundary —
pan below 20 is applied as 20, pan above 160 as 160, tilt below 50 as 50,
tilt above 110 as 110 — both in the value commanded to the hardware
(first component) and in the stored state, and never the raw value. -/
theorem safe_servo_clamps_to_boundary (v : ℤ) (s : RobotState) :
    ((v < PAN_MIN → (safe_servo 1 v s).1 = PAN_MIN ∧ (safe_servo 1 v s).2.pan = PAN_MIN ∧
        (safe_servo 1 v s).1 ≠ v) ∧
      (PAN_MAX < v → (safe_servo 1 v s).1 = PAN_MAX ∧ (safe_servo 1 v s).2.pan = PAN_MAX ∧
        (safe_servo 1 v s).1 ≠ v) ∧
      (v < TILT_MIN → (safe_servo 2 v s).1 = TILT_MIN ∧ (safe_servo 2 v s).2.tilt = TILT_MIN ∧
        (safe_servo 2 v s).1 ≠ v) ∧
      (TILT_MAX < v → (safe_servo 2 v s).1 = TILT_MAX ∧ (safe_servo 2 v s).2.tilt = TILT_MAX ∧
        (safe_servo 2 v s).1 ≠ v)) := by
  refine ⟨fun h => ⟨?_, ?_, ?_⟩, fun h => ⟨?_, ?_, ?_⟩,
    fun h => ⟨?_, ?_, ?_⟩, fun h => ⟨?_, ?_, ?_⟩⟩ <;>
  · norm_num [safe_servo, clamp_int, PAN_MIN, PAN_MAX, TILT_MIN, TILT_MAX] at h ⊢
    omega

/-- C8 witness: concrete out-of-range inputs on each side of each range. -/
theorem safe_servo_clamps_to_boundary_witness :
    (safe_servo 1 5 initState).1 = PAN_MIN ∧
      (safe_servo 1 200 initState).1 = PAN_MAX ∧
      (safe_servo 2 10 initState).1 = TILT_MIN ∧
      (safe_servo 2 170 initState).1 = TILT_MAX := by
  refine ⟨((safe_servo_clamps_to_boundary 5 initState).1 (by decide)).1,
    ((safe_servo_clamps_to_boundary 200 initState).2.1 (by decide)).1,
    ((safe_servo_clamps_to_boundary 10 initState).2.2.1 (by decide)).1,
    ((safe_servo_clamps_to_boundary 170 initState).2.2.2 (by decide)).1⟩

/-- Python `int(...)` applied to a float value: truncation toward zero. -/
def pyInt (q : ℚ) : ℤ := if 0 ≤ q then ⌊q⌋ else ⌈q⌉

/-- A `bot.Ctrl_Muto(channel, value)` command issued to the device gateway. -/
inductive MotorCmd where
  | ctrlMuto (channel : ℤ) (value : ℤ)
  deriving DecidableEq, Repr

/-- The signed speed value of a motor command. -/
def MotorCmd.value : MotorCmd → ℤ
  | .ctrlMuto _ v => v

/-- `stop_all_motors()` (`pannel.py` lines 85-87): zero to all 4 channels. -/
def stop_all_motors_cmds : List MotorCmd :=
  [.ctrlMuto 0 0, .ctrlMuto 1 0, .ctrlMuto 2 0, .ctrlMuto 3 0]

/-- `drive_all(speed_signed)` (`pannel.py` lines 89-91). -/
def drive_all_cmds (v : ℤ) : List MotorCmd :=
  [.ctrlMuto 0 v, .ctrlMuto 1 v, .ctrlMuto 2 v, .ctrlMuto 3 v]

/-- `spin_left(speed)` (`pannel.py` lines 93-97). -/
def spin_left_cmds (v : ℤ) : List MotorCmd :=
  [.ctrlMuto 0 (-v), .ctrlMuto 1 (-v), .ctrlMuto 2 v, .ctrlMuto 3 v]

/-- `spin_right(speed)` (`pannel.py` lines 99-103). -/
def spin_right_cmds (v : ℤ) : List MotorCmd :=
  [.ctrlMuto 0 v, .ctrlMuto 1 v, .ctrlMuto 2 (-v), .ctrlMuto 3 (-v)]

/-- Handler `api_motor_joystick` (`pannel.py` lines 1072-1103): clamp the
JSON `x`/`y` to `[-1,1]` (default 0); inside the 0.1 deadzone stop all
motors, otherwise mix `y*speed ∓ x*speed`, clamp to `[-255,255]`,
truncate to int and command the four channels. -/
def apiMotorJoystick (xin yin : Option ℚ) (s : RobotState) :
    List MotorCmd × RobotState :=
  let x := clamp_float xin (-1) 1 0
  let y := clamp_float yin (-1) 1 0
  let speed : ℚ := (s.speed : ℚ)
  if |x| < 1/10 ∧ |y| < 1/10 then
    (stop_all_motors_cmds, { s with status := .joystickStop })
  else
    let left_speed := pyInt (max (-255) (min 255 (y * speed - x * speed)))
    let right_speed := pyInt (max (-255) (min 255 (y * speed + x * speed)))
    ([.ctrlMuto 0 left_speed, .ctrlMuto 1 left_speed,
      .ctrlMuto 2 right_speed, .ctrlMuto 3 right_speed],
      { s with status := .joystickLR left_speed right_speed })

theorem pyInt_bounds {q : ℚ} (h1 : -255 ≤ q) (h2 : q ≤ 255) :
    -255 ≤ pyInt q ∧ pyInt q ≤ 255 := by
  unfold pyInt
  split_ifs with h
  · constructor
    · have : (0 : ℤ) ≤ ⌊q⌋ := Int.floor_nonneg.mpr h
      omega
    · have hf : (⌊q⌋ : ℚ) ≤ q := Int.floor_le q
      have : (⌊q⌋ : ℚ) ≤ 255 := hf.trans h2
      exact_mod_cast this
  · push_neg at h
    constructor
    · have hc : q ≤ (⌈q⌉ : ℚ) := Int.le_ceil q
      have : (-255 : ℚ) ≤ (⌈q⌉ : ℚ) := h1.trans hc
      exact_mod_cast this
    · have hc : ⌈q⌉ ≤ ⌈(0 : ℚ)⌉ := Int.ceil_le_ceil h.le
      rw [Int.ceil_zero] at hc
      omega

/-- C10: every motor command issued by `api_motor_joystick` carries a
value in `[-255, 255]`, for arbitrary `x`/`y` inputs and arbitrary stored
speed — the mixing sums are clamped before the truncation to int. -/
theorem apiMotorJoystick_cmds_bounded (xin yin : Option ℚ) (s : RobotState) :
    ∀ c ∈ (apiMotorJoystick xin yin s).1, -255 ≤ c.value ∧ c.value ≤ 255 := by
  intro c hc
  simp only [apiMotorJoystick] at hc
  split_ifs at hc with h
  · simp only [stop_all_motors_cmds, List.mem_cons, List.mem_singleton,
      List.not_mem_nil, or_false] at hc
    rcases hc with rfl | rfl | rfl | rfl <;> simp [MotorCmd.value]
  · have key : ∀ z : ℚ, -255 ≤ pyInt (max (-255) (min 255 z)) ∧
        pyInt (max (-255) (min 255 z)) ≤ 255 := by
      intro z
      refine pyInt_bounds (le_max_left _ _) (max_le (by norm_num) (min_le_left _ _))
    simp only [List.mem_cons, List.mem_singleton, List.not_mem_nil, or_false] at hc
    rcases hc with rfl | rfl | rfl | rfl <;> simpa [MotorCmd.value] using key _

/-- C10 witness: the four commands of a concrete deadzone request (both
inputs missing, hence defaulted to 0) are all within `[-255, 255]`. -/
theorem apiMotorJoystick_cmds_bounded_witness :
    -255 ≤ (MotorCmd.ctrlMuto 0 0).value ∧ (MotorCmd.ctrlMuto 0 0).value ≤ 255 :=
  apiMotorJoystick_cmds_bounded none none initState (MotorCmd.ctrlMuto 0 0) (by
    norm_num [apiMotorJoystick, clamp_float, stop_all_motors_cmds])

/-- Direction strings accepted by `api_motor_move` (`dir` form field);
`other` stands for any string that is none of the four known ones. -/
inductive Dir where
  | forward | backward | left | right | other
  deriving DecidableEq, Repr

/-- Handler `api_motor_move` (`pannel.py` lines 1311-1331): drive or spin
at the stored speed, or stop on an unknown direction. -/
def apiMotorMove (d : Dir) (s : RobotState) : List MotorCmd × RobotState :=
  match d with
  | .forward => (drive_all_cmds s.speed, { s with status := .moveForward s.speed })
  | .backward => (drive_all_cmds (-s.speed), { s with status := .moveBackward s.speed })
  | .left => (spin_left_cmds s.speed, { s with status := .spinLeft s.speed })
  | .right => (spin_right_cmds s.speed, { s with status := .spinRight s.speed })
  | .other => (stop_all_motors_cmds, { s with status := .motorsStopped })

/-- Handler `api_motor_stop` (`pannel.py` lines 1333-1338). -/
def apiMotorStop (s : RobotState) : List MotorCmd × RobotState :=
  (stop_all_motors_cmds, { s with status := .motorsStopped })

/-- Handler `api_servo_set_json` (`pannel.py` lines 1352-1361): clamp the
JSON `pan`/`tilt` with the *current* stored values as defaults, then apply
both through `safe_servo` and report the stored values. -/
def apiServoSetJson (p t : Option ℤ) (s : RobotState) : RobotState :=
  let pan := clamp_int p PAN_MIN PAN_MAX s.pan
  let tilt := clamp_int t TILT_MIN TILT_MAX s.tilt
  let s1 := (safe_servo 1 pan s).2
  let s2 := (safe_servo 2 tilt s1).2
  { s2 with status := .servoSet s2.pan s2.tilt }

/-- Handler `api_servo_center` (`pannel.py` lines 1363-1369). -/
def apiServoCenter (s : RobotState) : RobotState :=
  let s1 := (safe_servo 1 90 s).2
  let s2 := (safe_servo 2 90 s1).2
  { s2 with status := .servoCenter }

/-- Handler `api_servo_random` (`pannel.py` lines 1371-1379); the outputs
of `random.randint(PAN_MIN, PAN_MAX)` / `random.randint(TILT_MIN, TILT_MAX)`
are passed in as (arbitrary) parameters. -/
def apiServoRandom (p t : ℤ) (s : RobotState) : RobotState :=
  let s1 := (safe_servo 1 p s).2
  let s2 := (safe_servo 2 t s1).2
  { s2 with status := .servoRandom p t }

/-- One random-servo step of the sequence worker (`pannel.py` lines
1559-1561): two `safe_servo` calls, no status change. -/
def seqServoStep (p t : ℤ) (s : RobotState) : RobotState :=
  (safe_servo 2 t (safe_servo 1 p s).2).2

/-- The handler/worker steps of the program that read or write the
`speed`/`pan`/`tilt` fields.  Every write of `state["speed"]` in the
source is in `api_motor_speed`, and every write of `state["pan"]` /
`state["tilt"]` is inside `safe_servo`; the remaining handlers leave the
three fields unchanged and are represented by the non-mutating ops. -/
inductive Op where
  | motorSpeed (input : Option ℤ)
  | motorMove (d : Dir)
  | motorStop
  | motorJoystick (x y : Option ℚ)
  | servoSetJson (p t : Option ℤ)
  | servoCenter
  | servoRandom (p t : ℤ)
  | seqServo (p t : ℤ)

/-- State effect of one operation. -/
def applyOp : Op → RobotState → RobotState
  | .motorSpeed input, s => apiMotorSpeed input s
  | .motorMove d, s => (apiMotorMove d s).2
  | .motorStop, s => (apiMotorStop s).2
  | .motorJoystick x y, s => (apiMotorJoystick x y s).2
  | .servoSetJson p t, s => apiServoSetJson p t s
  | .servoCenter, s => apiServoCenter s
  | .servoRandom p t, s => apiServoRandom p t s
  | .seqServo p t, s => seqServoStep p t s

/-- State after a sequence of operations. -/
def applyOps (ops : List Op) (s : RobotState) : RobotState :=
  ops.foldl (fun s op => applyOp op s) s

/-- The spec's shared-state invariant: pan within `[20,160]`, tilt within
`[50,110]`, speed within `[0,255]`. -/
def StateInv (s : RobotState) : Prop :=
  PAN_MIN ≤ s.pan ∧ s.pan ≤ PAN_MAX ∧ TILT_MIN ≤ s.tilt ∧ s.tilt ≤ TILT_MAX ∧
    0 ≤ s.speed ∧ s.speed ≤ 255

theorem stateInv_status (s : RobotState) (x : Status) :
    StateInv { s with status := x } ↔ StateInv s := Iff.rfl

theorem two_servo_state (p t : ℤ) (s : RobotState) :
    (safe_servo 2 t (safe_servo 1 p s).2).2 =
      { s with pan := max PAN_MIN (min PAN_MAX p),
               tilt := max TILT_MIN (min TILT_MAX t) } := by
  norm_num [safe_servo, clamp_int]

theorem two_servo_inv (p t : ℤ) (s : RobotState) (h5 : 0 ≤ s.speed)
    (h6 : s.speed ≤ 255) : StateInv (safe_servo 2 t (safe_servo 1 p s).2).2 := by
  rw [two_servo_state]
  refine ⟨?_, ?_, ?_, ?_, h5, h6⟩ <;>
    simp only [PAN_MIN, PAN_MAX, TILT_MIN, TILT_MAX] <;> omega

theorem applyOp_preserves_inv (op : Op) (s : RobotState) (h : StateInv s) :
    StateInv (applyOp op s) := by
  obtain ⟨h1, h2, h3, h4, h5, h6⟩ := h
  cases op with
  | motorSpeed input =>
    refine ⟨h1, h2, h3, h4, ?_, ?_⟩ <;>
    · show _ ≤ _
      cases input <;> simp only [applyOp, apiMotorSpeed, clamp_int, DEFAULT_SPEED] <;> omega
  | motorMove d =>
    cases d <;> exact ⟨h1, h2, h3, h4, h5, h6⟩
  | motorStop => exact ⟨h1, h2, h3, h4, h5, h6⟩
  | motorJoystick x y =>
    simp only [applyOp, apiMotorJoystick]
    split_ifs <;> exact ⟨h1, h2, h3, h4, h5, h6⟩
  | servoSetJson p t =>
    exact (stateInv_status _ _).mpr (two_servo_inv _ _ s h5 h6)
  | servoCenter =>
    exact (stateInv_status _ _).mpr (two_servo_inv _ _ s h5 h6)
  | servoRandom p t =>
    exact (stateInv_status _ _).mpr (two_servo_inv _ _ s h5 h6)
  | seqServo p t =>
    exact two_servo_inv _ _ s h5 h6

theorem applyOps_preserves_inv (ops : List Op) (s : RobotState) (h : StateInv s) :
    StateInv (applyOps ops s) := by
  induction ops generalizing s with
  | nil => exact h
  | cons op rest ih => exact ih _ (applyOp_preserves_inv op s h)

/-- C4: starting from the defaults (speed 120, pan 90, tilt 90), after any
sequence of handler/worker operations the pan stays in `[20,160]`, the
tilt in `[50,110]` and the speed in `[0,255]`. -/
theorem state_invariant_holds (ops : List Op) : StateInv (applyOps ops initState) :=
  applyOps_preserves_inv ops initState
    ⟨by decide, by decide, by decide, by decide, by decide, by decide⟩

/-- The camera globals of `pannel.py` lines 58-59: `cap` (open handle or
`None`, modelled as a flag) and `cap_last_open_fail` (timestamp, `ℚ`). -/
structure CamState where
  cap : Bool
  lastFail : ℚ
  deriving DecidableEq, Repr

/-- Initial camera globals: no handle, `cap_last_open_fail = 0.0`. -/
def camInit : CamState := { cap := false, lastFail := 0 }

/-- `_open_camera_locked()` (`pannel.py` lines 124-143), with the current
time and the outcome of the `cv2.VideoCapture` open attempt as oracle
inputs: already-open returns success at once; a failure less than 2
seconds ago returns failure without an attempt; otherwise attempt, and on
a failed open record the timestamp and stay closed. -/
def openCameraLocked (st : CamState) (now : ℚ) (deviceOpens : Bool) :
    Bool × CamState :=
  if st.cap then (true, st)
  else if now - st.lastFail < 2 then (false, st)
  else if deviceOpens then (true, { st with cap := true })
  else (false, { st with lastFail := now })

/-- Whether `_open_camera_locked` reaches the `cv2.VideoCapture`
constructor (the open attempt), following the same branch structure. -/
def openCameraAttempts (st : CamState) (now : ℚ) : Bool :=
  if st.cap then false
  else if now - st.lastFail < 2 then false
  else true

/-- `_get_fresh_frame_locked()` (`pannel.py` lines 145-154): `None` when
no handle is open, otherwise the outcome of the flushed `cap.read()`
(oracle input; `none` covers both `not ok` and a `None` frame). -/
def getFreshFrameLocked (st : CamState) (readResult : Option ℕ) : Option ℕ :=
  if st.cap then readResult else none

/-- C6: `_open_camera_locked` returns success immediately when the handle
is open; within the 2-second cooldown after a failed open it returns
failure without attempting an open and without state change; after 2 or
more seconds it attempts the open again; and a failed attempt records the
failure timestamp and leaves the handle closed. -/
theorem openCameraLocked_cooldown (st : CamState) (now : ℚ) (dev : Bool) :
    ((st.cap = true → openCameraLocked st now dev = (true, st)) ∧
      (st.cap = false → now - st.lastFail < 2 →
        openCameraLocked st now dev = (false, st) ∧
          openCameraAttempts st now = false) ∧
      (st.cap = false → 2 ≤ now - st.lastFail →
        openCameraAttempts st now = true) ∧
      (st.cap = false → 2 ≤ now - st.lastFail → dev = false →
        openCameraLocked st now dev = (false, { st with lastFail := now }))) := by
  refine ⟨fun h => ?_, fun h hlt => ⟨?_, ?_⟩, fun h hge => ?_, fun h hge hdev => ?_⟩
  · simp [openCameraLocked, h]
  · simp [openCameraLocked, h, hlt]
  · simp [openCameraAttempts, h, hlt]
  · simp [openCameraAttempts, h, not_lt.mpr hge]
  · simp [openCameraLocked, h, hdev, not_lt.mpr hge]

/-- C6 witness: a handle-open call at time 10, a cooldown call at time 1
after a failure at time 0, a retry at time 3 that fails and records the
new timestamp. -/
theorem openCameraLocked_cooldown_witness :
    openCameraLocked { cap := true, lastFail := 0 } 10 false = (true, { cap := true, lastFail := 0 }) ∧
      openCameraLocked camInit 1 true = (false, camInit) ∧
      openCameraAttempts camInit 1 = false ∧
      openCameraAttempts camInit 3 = true ∧
      openCameraLocked camInit 3 false = (false, { cap := false, lastFail := 3 }) := by
  refine ⟨(openCameraLocked_cooldown { cap := true, lastFail := 0 } 10 false).1 rfl,
    ((openCameraLocked_cooldown camInit 1 true).2.1 rfl (by norm_num [camInit])).1,
    ((openCameraLocked_cooldown camInit 1 true).2.1 rfl (by norm_num [camInit])).2,
    (openCameraLocked_cooldown camInit 3 true).2.2.1 rfl (by norm_num [camInit]),
    (openCameraLocked_cooldown camInit 3 false).2.2.2 rfl (by norm_num [camInit]) rfl⟩

/-- `capture_picture(tag)` (`pannel.py` lines 156-169), under the hardware
lock: fail to open or no fresh frame yields `None` and writes nothing;
otherwise one file (timestamped, tagged, pan/tilt-named) is written and
its path returned.  Second component: the list of files written. -/
def capturePicture (st : CamState) (now : ℚ) (deviceOpens : Bool)
    (readResult : Option ℕ) (tag : String) (rs : RobotState) :
    Option String × List String × CamState :=
  match openCameraLocked st now deviceOpens with
  | (false, st2) => (none, [], st2)
  | (true, st2) =>
    match getFreshFrameLocked st2 readResult with
    | none => (none, [], st2)
    | some _ =>
      let fname := "img_" ++ toString now ++ "_" ++ tag ++ "_pan" ++
        toString rs.pan ++ "_tilt" ++ toString rs.tilt ++ ".jpg"
      (some fname, [fname], st2)

/-- C5: `capture_picture` persists a file iff a frame was actually read —
the "no picture" result (`none`) coincides with no file written, and a
write implies the camera opened and the flushed read produced a frame. -/
theorem capturePicture_writes_iff_frame (st : CamState) (now : ℚ) (dev : Bool)
    (readResult : Option ℕ) (tag : String) (rs : RobotState) :
    (((capturePicture st now dev readResult tag rs).1 = none ↔
        (capturePicture st now dev readResult tag rs).2.1 = []) ∧
      ((capturePicture st now dev readResult tag rs).2.1 ≠ [] →
        (openCameraLocked st now dev).1 = true ∧
          getFreshFrameLocked (openCameraLocked st now dev).2 readResult ≠ none)) := by
  rcases hoc : openCameraLocked st now dev with ⟨ok, st2⟩
  cases ok
  · simp [capturePicture, hoc]
  · cases hf : getFreshFrameLocked st2 readResult <;>
      simp [capturePicture, hoc, hf]

/-- C5 witness: with a closed camera and a failing open, nothing is
written; follows by applying the iff-theorem at a concrete input. -/
theorem capturePicture_writes_iff_frame_witness :
    (capturePicture camInit 1 true none "snap" initState).2.1 = [] := by
  exact (capturePicture_writes_iff_frame camInit 1 true none "snap" initState).1.mp (by
    norm_num [capturePicture, openCameraLocked, getFreshFrameLocked, camInit])

/-- The per-iteration external inputs of the MJPEG loop: current time, the
open-attempt outcome, the flushed-read outcome, and the
`cv2.imencode` outcome. -/
structure IterInput where
  now : ℚ
  deviceOpens : Bool
  readResult : Option ℕ
  encodeOk : Bool
  deriving DecidableEq, Repr

/-- Observable actions of one MJPEG loop iteration: yielding the
plain-text placeholder part, yielding a JPEG frame part, or sleeping. -/
inductive StreamAct where
  | placeholder
  | sleepFor (q : ℚ)
  | jpeg (f : ℕ)
  deriving DecidableEq, Repr

/-- The frame obtained by one iteration of `mjpeg_generator`
(`pannel.py` lines 174-176): `_open_camera_locked()` under the lock, then
`_get_fresh_frame_locked()` only if it succeeded. -/
def frameResult (st : CamState) (i : IterInput) : Option ℕ :=
  match openCameraLocked st i.now i.deviceOpens with
  | (ok, st2) => if ok then getFreshFrameLocked st2 i.readResult else none

/-- One iteration of the `while True` loop of `mjpeg_generator`
(`pannel.py` lines 171-192): no frame yields the placeholder part and a
0.5-second backoff; a frame whose encode fails sleeps 0.05 and yields
nothing; an encoded frame is yielded followed by the `1/FPS_LIMIT` rate
delay.  Every branch ends in `continue`: the iteration also returns the
camera state for the next iteration. -/
def mjpegIter (st : CamState) (i : IterInput) : List StreamAct × CamState :=
  match frameResult st i with
  | none => ([.placeholder, .sleepFor (1/2)], (openCameraLocked st i.now i.deviceOpens).2)
  | some f =>
    if i.encodeOk then ([.jpeg f, .sleepFor (1/FPS_LIMIT)], (openCameraLocked st i.now i.deviceOpens).2)
    else ([.sleepFor (1/20)], (openCameraLocked st i.now i.deviceOpens).2)

/-- The actions of the MJPEG generator over a finite prefix of loop
iterations (the loop itself is unbounded; any prefix is processed). -/
def mjpegRun (st : CamState) : List IterInput → List StreamAct
  | [] => []
  | i :: rest => (mjpegIter st i).1 ++ mjpegRun (mjpegIter st i).2 rest

theorem mjpegIter_produces (st : CamState) (i : IterInput) :
    1 ≤ (mjpegIter st i).1.length := by
  unfold mjpegIter
  cases frameResult st i with
  | none => simp
  | some f => by_cases h : i.encodeOk = true <;> simp [h]

/-- C7: the MJPEG generator never terminates on a frame acquisition or
read failure — an iteration with no frame yields the placeholder part and
the 0.5-second backoff and the loop continues with all remaining
iterations; an iteration with a frame and a successful encode yields the
JPEG part (so the stream recovers as soon as the camera yields frames
again); and every iteration of any finite prefix is processed, each
producing at least one action. -/
theorem mjpeg_stream_resilient :
    ((∀ st i rest, frameResult st i = none →
        mjpegRun st (i :: rest) =
          StreamAct.placeholder :: StreamAct.sleepFor (1/2) ::
            mjpegRun (mjpegIter st i).2 rest) ∧
      (∀ st i rest f, frameResult st i = some f → i.encodeOk = true →
        mjpegRun st (i :: rest) =
          StreamAct.jpeg f :: StreamAct.sleepFor (1/FPS_LIMIT) ::
            mjpegRun (mjpegIter st i).2 rest) ∧
      (∀ st inps, inps.length ≤ (mjpegRun st inps).length)) := by
  refine ⟨fun st i rest h => ?_, fun st i rest f h henc => ?_, fun st inps => ?_⟩
  · simp [mjpegRun, mjpegIter, h]
  · simp [mjpegRun, mjpegIter, h, henc]
  · induction inps generalizing st with
    | nil => simp [mjpegRun]
    | cons i rest ih =>
      rw [mjpegRun, List.length_append]
      have h1 := mjpegIter_produces st i
      have h2 := ih (mjpegIter st i).2
      simp only [List.length_cons]
      omega

/-- C7 witness: a concrete two-iteration run — the camera fails to open at
time 5 (placeholder part, backoff), then opens at time 8 and a frame is
read and encoded (JPEG part): the stream recovers after the failure. -/
theorem mjpeg_stream_resilient_witness :
    mjpegRun camInit
        [{ now := 5, deviceOpens := false, readResult := none, encodeOk := true },
         { now := 8, deviceOpens := true, readResult := some 7, encodeOk := true }] =
      [StreamAct.placeholder, StreamAct.sleepFor (1/2),
        StreamAct.jpeg 7, StreamAct.sleepFor (1/FPS_LIMIT)] := by
  have e1 : frameResult camInit
      { now := 5, deviceOpens := false, readResult := none, encodeOk := true } = none := by
    norm_num [frameResult, openCameraLocked, getFreshFrameLocked, camInit]
  have est : (mjpegIter camInit
      { now := 5, deviceOpens := false, readResult := none, encodeOk := true }).2 =
      { cap := false, lastFail := 5 } := by
    simp only [mjpegIter, e1]
    norm_num [openCameraLocked, camInit]
  have e2 : frameResult { cap := false, lastFail := 5 }
      { now := 8, deviceOpens := true, readResult := some 7, encodeOk := true } = some 7 := by
    norm_num [frameResult, openCameraLocked, getFreshFrameLocked]
  have h1 := mjpeg_stream_resilient.1 camInit
    { now := 5, deviceOpens := false, readResult := none, encodeOk := true }
    [{ now := 8, deviceOpens := true, readResult := some 7, encodeOk := true }] e1
  have h2 := mjpeg_stream_resilient.2.1 { cap := false, lastFail := 5 }
    { now := 8, deviceOpens := true, readResult := some 7, encodeOk := true } [] 7 e2 rfl
  rw [h1, est, h2]
  simp [mjpegRun]

/-- The sequence-task coordination state: the dedicated non-blocking
`run_lock` (`pannel.py` line 44) and the number of live sequence worker
threads. -/
structure SeqSys where
  runLockHeld : Bool
  running : ℕ
  status : Status
  deriving DecidableEq, Repr

/-- Initial coordination state: lock free, no worker. -/
def seqInit : SeqSys := { runLockHeld := false, running := 0, status := .ready }

/-- Events of the sequence-task lifecycle. -/
inductive SeqEv where
  | startReq
  | workerDone
  deriving DecidableEq, Repr

/-- `api_sequence_run` (`pannel.py` lines 1540-1575) and worker exit:
`startReq` — `run_lock.acquire(blocking=False)` failing sets the busy
status and returns with no thread started; succeeding takes the lock and
starts exactly one worker thread.  `workerDone` — the worker's
`finally: run_lock.release()` as its thread exits (no-op if no worker is
live). -/
def seqStep : SeqEv → SeqSys → SeqSys
  | .startReq, s =>
    if s.runLockHeld then { s with status := .sequenceBusy }
    else { s with runLockHeld := true, running := s.running + 1 }
  | .workerDone, s =>
    if 0 < s.running then { s with runLockHeld := false, running := s.running - 1 }
    else s

/-- State after a sequence of lifecycle events. -/
def seqRun (evs : List SeqEv) (s : SeqSys) : SeqSys :=
  evs.foldl (fun s e => seqStep e s) s

/-- Invariant tying the lock to the workers: at most one worker, and none
while the lock is free. -/
def SeqInv (s : SeqSys) : Prop :=
  s.running ≤ 1 ∧ (s.runLockHeld = false → s.running = 0)

theorem seqStep_preserves (e : SeqEv) (s : SeqSys) (h : SeqInv s) :
    SeqInv (seqStep e s) := by
  obtain ⟨h1, h2⟩ := h
  cases e with
  | startReq =>
    by_cases hl : s.runLockHeld = true
    · exact ⟨by simpa [seqStep, hl] using h1, by simp [seqStep, hl]⟩
    · simp only [Bool.not_eq_true] at hl
      refine ⟨?_, ?_⟩ <;> simp [seqStep, hl, h2 hl]
  | workerDone =>
    by_cases hr : 0 < s.running
    · refine ⟨?_, ?_⟩ <;> simp [seqStep, hr] <;> omega
    · constructor
      · simpa [seqStep, hr] using h1
      · simpa [seqStep, hr] using h2

theorem seqRun_preserves (evs : List SeqEv) (s : SeqSys) (h : SeqInv s) :
    SeqInv (seqRun evs s) := by
  induction evs generalizing s with
  | nil => exact h
  | cons e rest ih => exact ih _ (seqStep_preserves e s h)

/-- C2: a start request while the run-lock is held changes only the
status text (to the busy message) — the lock stays held, the worker count
is unchanged, no thread is started; and along every event sequence from
the initial state at most one sequence worker is ever running. -/
theorem api_sequence_run_busy_single_instance :
    ((∀ s : SeqSys, s.runLockHeld = true →
        seqStep .startReq s = { s with status := .sequenceBusy }) ∧
      (∀ evs : List SeqEv, (seqRun evs seqInit).running ≤ 1)) := by
  refine ⟨fun s h => by simp [seqStep, h], fun evs => ?_⟩
  exact (seqRun_preserves evs seqInit ⟨by decide, fun _ => rfl⟩).1

/-- C2 witness: a concrete busy rejection (lock held, one worker live)
and a concrete event sequence (start, start-while-busy, finish). -/
theorem api_sequence_run_busy_single_instance_witness :
    seqStep .startReq { runLockHeld := true, running := 1, status := .ready } =
        { runLockHeld := true, running := 1, status := .sequenceBusy } ∧
      (seqRun [.startReq, .startReq, .workerDone] seqInit).running ≤ 1 := by
  exact ⟨api_sequence_run_busy_single_instance.1
      { runLockHeld := true, running := 1, status := .ready } rfl,
    api_sequence_run_busy_single_instance.2 [.startReq, .startReq, .workerDone]⟩

/-- Outcome flags for the five fallible device-gateway calls of
`api_panic` (`true` means the call raises a bus error). -/
structure PanicFail where
  motor : Bool
  buzzer : Bool
  led : Bool
  ultra : Bool
  ir : Bool
  deriving DecidableEq, Repr

/-- The gateway calls attempted by `api_panic`, plus the lightshow stop. -/
inductive PanicAct where
  | motorStopCall
  | beepOff
  | ledAllOff
  | ultraOff
  | irOff
  | stopShow
  deriving DecidableEq, Repr

/-- One `try: <gateway call>; <state updates> except Exception: pass`
block: the call is always attempted (recorded first), and the updates
inside the `try` apply only when it does not raise. -/
def tryBlock (a : PanicAct) (fails : Bool) (upd : RobotState → RobotState)
    (s : RobotState) : List PanicAct × RobotState :=
  ([a], if fails then s else upd s)

/-- Handler `api_panic` (`pannel.py` lines 1274-1302): five independently
guarded gateway calls (motor stop, buzzer off, LEDs off, ultrasonic off,
IR off), then `stop_lightshow()` (slot cleared), the LED-preset reset and
the status update.  `slot` is the global `lightshow` reference. -/
def apiPanic (f : PanicFail) (s : RobotState) (slot : Option ℕ) :
    List PanicAct × RobotState × Option ℕ :=
  let b1 := tryBlock .motorStopCall f.motor id s
  let b2 := tryBlock .beepOff f.buzzer id b1.2
  let b3 := tryBlock .ledAllOff f.led id b2.2
  let b4 := tryBlock .ultraOff f.ultra (fun s => { s with ultraOn := false }) b3.2
  let b5 := tryBlock .irOff f.ir (fun s => { s with irOn := false }) b4.2
  let s6 := { b5.2 with lastLedColor := none, status := .panicDone }
  (b1.1 ++ b2.1 ++ b3.1 ++ b4.1 ++ b5.1 ++ [.stopShow], s6, none)

/-- C9: whatever subset of the five gateway calls fails, `api_panic`
still attempts every call (each failure is caught at its own call site),
stops the light show (the slot is cleared) and updates the status text. -/
theorem apiPanic_best_effort (f : PanicFail) (s : RobotState) (slot : Option ℕ) :
    ((apiPanic f s slot).1 =
        [.motorStopCall, .beepOff, .ledAllOff, .ultraOff, .irOff, .stopShow] ∧
      (apiPanic f s slot).2.1.status = .panicDone ∧
      (apiPanic f s slot).2.2 = none) :=
  ⟨rfl, rfl, rfl⟩

/-- Actions recorded in the light-effect lifecycle trace. -/
inductive LAct where
  | stopSignal (i : ℕ)
  | spawn (i : ℕ)
  deriving DecidableEq, Repr

/-- State of the light-effect task class: the global `lightshow` slot
(`pannel.py` line 61), worker threads that are spawned but have not yet
entered `run_lightshow`, workers inside `execute_effect`, finished worker
threads (their task slot is idle), whether the indicator LEDs are lit,
and the trace of stop/spawn actions. -/
structure LightSys where
  slot : Option ℕ
  pending : List ℕ
  running : List ℕ
  finished : List ℕ
  lightsOn : Bool
  trace : List LAct
  deriving DecidableEq, Repr

/-- Initial light-effect state: empty slot, no workers, LEDs off. -/
def lightInit : LightSys :=
  { slot := none, pending := [], running := [], finished := [],
    lightsOn := false, trace := [] }

/-- Interleaving events of the light-effect lifecycle.  `renderStep` is
the opaque effect renderer writing the indicator LEDs.

Modelled from the spec: `Raspbot_Lib.LightShow` is not part of the
sources — per the spec it is the opaque Effect Renderer
(`run(effectName, duration, speedParam, colorCode, stopSignal)` /
`turnOffAll()`) whose running effect lights the indicators and observes
the cooperative stop signal. -/
inductive LightEv where
  | startEffect (n : ℕ)
  | beginWorker (n : ℕ)
  | renderStep (n : ℕ)
  | finishWorker (n : ℕ)
  | stopHandler
  deriving DecidableEq, Repr

/-- The stop half of `stop_lightshow()` (`pannel.py` lines 200-208): the
current slot occupant, if any, receives the cooperative stop signal. -/
def stopTrace (slot : Option ℕ) : List LAct :=
  match slot with
  | none => []
  | some j => [.stopSignal j]

/-- One lifecycle step.
* `startEffect n` — handler `api_light_effect` (`pannel.py` lines
  1498-1518): under the hardware lock `stop_lightshow()` signals the
  prior occupant and clears the slot, then the new worker thread `n` is
  spawned.
* `beginWorker n` — the worker enters `run_lightshow` (lines 210-215):
  it constructs its `LightShow` and stores it in the global slot.
* `renderStep n` — the running effect writes the indicator LEDs.
* `finishWorker n` — `execute_effect` returns and the `finally` block
  (lines 216-221) runs: `turn_off_all_lights()` is called only when the
  global slot is non-empty; the thread then exits (its task slot idle).
* `stopHandler` — handler `api_light_stop` (lines 1520-1529):
  `stop_lightshow()` plus the handler's own `Ctrl_WQ2812_ALL(0, 0)`. -/
def lightStep : LightEv → LightSys → LightSys
  | .startEffect n, s =>
    { s with slot := none,
             pending := n :: s.pending,
             trace := s.trace ++ stopTrace s.slot ++ [.spawn n] }
  | .beginWorker n, s =>
    if n ∈ s.pending then
      { s with slot := some n, pending := s.pending.erase n,
               running := n :: s.running }
    else s
  | .renderStep n, s =>
    if n ∈ s.running then { s with lightsOn := true } else s
  | .finishWorker n, s =>
    if n ∈ s.running then
      { s with running := s.running.erase n,
               finished := n :: s.finished,
               lightsOn := if s.slot = none then s.lightsOn else false }
    else s
  | .stopHandler, s =>
    { s with slot := none, lightsOn := false,
             trace := s.trace ++ stopTrace s.slot }

/-- State after a sequence of light-effect lifecycle events. -/
def lightRun (evs : List LightEv) (s : LightSys) : LightSys :=
  evs.foldl (fun s e => lightStep e s) s

/-- C3 counterexample: effect 1 starts, begins and lights the LEDs;
effect 2's start signals effect 1 to stop and clears the slot; effect 1
then finishes *before* effect 2 begins — its teardown guard
(`if lightshow is not None`) sees the cleared slot and skips
`turn_off_all_lights()`, so worker 1's slot becomes idle with the
indicators still lit, contradicting the claim that every finishing
instance turns all indicator hardware off before going idle. -/
theorem lightshow_teardown_counterexample :
    (lightRun [.startEffect 1, .beginWorker 1, .renderStep 1, .startEffect 2,
        .finishWorker 1] lightInit).lightsOn = true ∧
      1 ∈ (lightRun [.startEffect 1, .beginWorker 1, .renderStep 1, .startEffect 2,
        .finishWorker 1] lightInit).finished ∧
      (lightRun [.startEffect 1, .beginWorker 1, .renderStep 1, .startEffect 2,
        .finishWorker 1] lightInit).trace =
        [.spawn 1, .stopSignal 1, .spawn 2] := by
  refine ⟨rfl, by decide, rfl⟩

/-- C3 (amended): (a) when `api_light_effect` runs while the slot holds a
prior instance, that instance receives its stop signal strictly before
the new worker is spawned (the handler's trace appends the stop, then the
spawn); (b) a finishing instance's teardown turns all indicators off
whenever the global `lightshow` reference is non-empty at finish time (in
particular on natural completion); when the instance was stopped and the
reference is still cleared, the teardown skips the turn-off. -/
theorem light_effect_replacement (s : LightSys) (n j i : ℕ) :
    ((s.slot = some j →
        (lightStep (.startEffect n) s).trace =
          s.trace ++ [.stopSignal j, .spawn n]) ∧
      (i ∈ s.running → s.slot ≠ none →
        (lightStep (.finishWorker i) s).lightsOn = false) ∧
      (i ∈ s.running → s.slot = none →
        (lightStep (.finishWorker i) s).lightsOn = s.lightsOn)) := by
  refine ⟨fun h => ?_, fun hm hs => ?_, fun hm hs => ?_⟩
  · simp [lightStep, stopTrace, h]
  · simp [lightStep, hm, hs]
  · simp [lightStep, hm, hs]

/-- C3 witness: a concrete replacement (slot holds 4, worker 9 spawned)
and a concrete natural completion (worker 4 finishes while the slot holds
4: lights end off) and a concrete stopped finish (slot empty: lights keep
their last state). -/
theorem light_effect_replacement_witness :
    (lightStep (.startEffect 9)
        { slot := some 4, pending := [], running := [4], finished := [],
          lightsOn := true, trace := [] }).trace =
        [.stopSignal 4, .spawn 9] ∧
      (lightStep (.finishWorker 4)
        { slot := some 4, pending := [], running := [4], finished := [],
          lightsOn := true, trace := [] }).lightsOn = false ∧
      (lightStep (.finishWorker 4)
        { slot := none, pending := [], running := [4], finished := [],
          lightsOn := true, trace := [] }).lightsOn = true := by
  refine ⟨?_, ?_, ?_⟩
  · have h := (light_effect_replacement
      { slot := some 4, pending := [], running := [4], finished := [],
        lightsOn := true, trace := [] } 9 4 0).1 rfl
    simpa using h
  · exact (light_effect_replacement
      { slot := some 4, pending := [], running := [4], finished := [],
        lightsOn := true, trace := [] } 0 0 4).2.1 (by decide) (by decide)
  · exact (light_effect_replacement
      { slot := none, pending := [], running := [4], finished := [],
        lightsOn := true, trace := [] } 0 0 4).2.2 (by decide) rfl
